import Mathlib

/-!
Verification of the Spreadsheet Command Translation Layer
(AgenticLedger GoogleSheetsMCP server).

The definitions below are a shallow embedding of the pure,
request-building portions of the TypeScript handlers:

* `indexToColumn` — sheets_insert_rows helper (column letters).
* `buildInsertDimensionRange` — sheets_insert_rows coordinate arithmetic.
* `matchFixedRange` / `validateRangeRowCount` / `handleUpdateValues`
  — sheets_update_values row-count validation.
* `buildCellFormat` / `buildFormatCellsRequest` — sheets_format_cells.
* `batchBuildCellFormat` / `buildBatchFormatRequests`
  — sheets_batch_format_cells.
* `buildUpdateBordersRequest` — sheets_update_borders.
* `buildChartSpec` — sheets_create_chart.
* `findChart` / `buildUpdatedChart` / `handleUpdateChartModel`
  — sheets_update_chart.

Backend dispatch is modelled by returning the request value the handler
would send, wrapped in `Except` where the handler can throw before
dispatching; the sheet-metadata lookup is modelled by an explicit
association list of sheet identities.  Helpers that live in
`src/utils/range-helpers.ts` (whose code is not among the available
sources) are modelled from the design document and carry a
`Modelled from the spec:` doc comment.
-/

namespace SheetsMCP

/-- A cell value in a values payload.  Only the row structure of the
payload matters to the properties below, so cells are kept as strings. -/
abbrev CellValue := String

/-! ## Column letters (sheets_insert_rows helper `indexToColumn`) -/

/-- Loop of `indexToColumn` (source: `while (num > 0) { num--;
column = String.fromCharCode((num % 26) + 65) + column;
num = Math.floor(num / 26); }`). -/
def indexToColumnGo (num : Nat) (column : List Char) : List Char :=
  if num = 0 then column
  else indexToColumnGo ((num - 1) / 26) (Char.ofNat ((num - 1) % 26 + 65) :: column)
termination_by num
decreasing_by
  have h26 : (num - 1) / 26 ≤ num - 1 := Nat.div_le_self _ _
  omega

/-- `indexToColumn` from the sheets_insert_rows tool: converts a
zero-based column index to column letters (0 = A, 25 = Z, 26 = AA). -/
def indexToColumn (index : Nat) : String :=
  ⟨indexToColumnGo (index + 1) []⟩

/-- A character is a valid column letter when it lies in `A`..`Z`
(code points 65..90). -/
def isColLetter (c : Char) : Prop := 65 ≤ c.toNat ∧ c.toNat ≤ 90

instance (c : Char) : Decidable (isColLetter c) := by
  unfold isColLetter; infer_instance

/-- Boolean form of `isColLetter`, used inside executable parsers. -/
def isColLetterB (c : Char) : Bool := 65 ≤ c.toNat && c.toNat ≤ 90

/-- Bijective base-26 value of a letter string, each letter contributing
`1`..`26`; this is the zero-based column index plus one. -/
def colVal (l : List Char) : Nat :=
  l.foldl (fun a c => a * 26 + (c.toNat - 64)) 0

/-- Modelled from the spec: `columnToIndex` / `lettersToIndex` — the
inverse of `indexToColumn` is described in the design document
(bijective base-26 with A = 0, Z = 25, AA = 26) but its code is not
among the available sources. -/
def lettersToIndex (s : String) : Nat := colVal s.data - 1

/-! ## sheets_update_values row-count validation -/

/-- Decimal value of a digit string, as read by `parseInt`. -/
def digitsToNat (l : List Char) : Nat :=
  l.foldl (fun a c => a * 10 + (c.toNat - 48)) 0

/-- Model of the end-anchored regular expression
`([A-Z]+)(\d+):([A-Z]+)(\d+)$` from `validateRangeRowCount`
(update-values tool, line 80).  A match exists exactly when the string
ends with a letter run, a digit run, a colon, a letter run and a digit
run; because the four character classes are disjoint and the pattern is
anchored at the end, the leftmost-greedy groups of the regex are the
maximal runs read off from the right.  Returns the four capture groups
in order. -/
def matchFixedRange (s : String) :
    Option (List Char × List Char × List Char × List Char) :=
  let r := s.data.reverse
  let d2 := r.takeWhile Char.isDigit
  let r1 := r.dropWhile Char.isDigit
  let l2 := r1.takeWhile isColLetterB
  let r2 := r1.dropWhile isColLetterB
  if d2 = [] ∨ l2 = [] then none
  else
    match r2 with
    | ':' :: r3 =>
      let d1 := r3.takeWhile Char.isDigit
      let r4 := r3.dropWhile Char.isDigit
      let l1 := r4.takeWhile isColLetterB
      if d1 = [] ∨ l1 = [] then none
      else some (l1.reverse, d1.reverse, l2.reverse, d2.reverse)
    | _ => none

/-- The row-count-mismatch error thrown by `validateRangeRowCount`
(only the data interpolated into the message is modelled, not the
message text). -/
inductive RangeError where
  | rangeMismatch (range : String) (expectedRows : Int) (actualRows : Nat)
deriving DecidableEq

/-- `validateRangeRowCount` from the update-values tool: when the range
ends in a letters-digits:letters-digits pattern, the payload row count
must equal `endRow - startRow + 1`; otherwise the function returns
without error. -/
def validateRangeRowCount (range : String) (values : List (List CellValue)) :
    Except RangeError Unit :=
  match matchFixedRange range with
  | none => .ok ()
  | some (_, d1, _, d2) =>
    let startRow : Int := digitsToNat d1
    let endRow : Int := digitsToNat d2
    let expectedRows : Int := endRow - startRow + 1
    let actualRows : Nat := values.length
    if expectedRows ≠ (actualRows : Int) then
      .error (.rangeMismatch range expectedRows actualRows)
    else .ok ()

/-- The `spreadsheets.values.update` call dispatched by
`handleUpdateValues`. -/
structure ValuesUpdateCall where
  spreadsheetId : String
  range : String
  valueInputOption : String
  values : List (List CellValue)
deriving DecidableEq

/-- `handleUpdateValues`: validates the range against the payload row
count, then dispatches the update.  Schema validation
(`validateUpdateValuesInput`, not among the available sources) only
produces the typed values consumed here, per the design document, and
is therefore the identity on this already-typed input.  An `.error`
result models the handler throwing before the backend call is
dispatched. -/
def handleUpdateValues (spreadsheetId range valueInputOption : String)
    (values : List (List CellValue)) : Except RangeError ValuesUpdateCall := do
  validateRangeRowCount range values
  .ok { spreadsheetId := spreadsheetId
        range := range
        valueInputOption := valueInputOption
        values := values }

/-! ## Row-insert coordinate arithmetic (sheets_insert_rows) -/

/-- Model of the `insertDimension.range` object built by
`handleInsertRows`. -/
structure InsertDimensionRange where
  sheetId : Nat
  dimension : String
  startIndex : Nat
  endIndex : Nat
deriving DecidableEq

/-- The insertion start index (source: `const startIndex =
validatedInput.position === 'AFTER' ? anchorRowIndex + 1 :
anchorRowIndex;`). -/
def insertStartIndex (position : String) (anchorRowIndex : Nat) : Nat :=
  if position = "AFTER" then anchorRowIndex + 1 else anchorRowIndex

/-- The `insertDimension` range built by `handleInsertRows` from the
anchor row index, the requested row count and the position token
(source lines 84-109 of the insert-rows tool: `const endIndex =
startIndex + validatedInput.rows;`). -/
def buildInsertDimensionRange (sheetId : Nat) (position : String)
    (anchorRowIndex rows : Nat) : InsertDimensionRange :=
  let startIndex := insertStartIndex position anchorRowIndex
  { sheetId := sheetId
    dimension := "ROWS"
    startIndex := startIndex
    endIndex := startIndex + rows }

/-! ## Addressing helpers (range-helpers.ts, modelled from the spec) -/

/-- A rectangular grid region.  Modelled from the spec: `GridRegion`
with zero-based coordinates and inclusive end bounds, as in the design
document (`"Sheet1!A1:C10"` parses to
`{startRow:0, endRow:9, startCol:0, endCol:2}`).  The claims below only
exercise bounded regions, so the bounds are plain naturals. -/
structure GridRegion where
  sheetId : Nat
  startRow : Nat
  endRow : Nat
  startCol : Nat
  endCol : Nat
deriving DecidableEq

/-- Translation-time errors raised before any backend dispatch. -/
inductive TranslationError where
  | invalidRange (range : String)
  | sheetNotFound (name : String)
deriving DecidableEq

/-- The single-quote character used to quote sheet names. -/
def quoteChar : Char := Char.ofNat 39

/-- Strips one layer of single quotes from a sheet name, if present. -/
def stripQuotes (l : List Char) : List Char :=
  if 2 ≤ l.length ∧ l.head? = some quoteChar ∧ l.getLast? = some quoteChar then
    (l.drop 1).dropLast
  else l

/-- Modelled from the spec: `extractSheetName` (range-helpers.ts is not
among the available sources) splits an optional leading sheet-name
qualifier before `!` and strips one layer of single quotes from it
(design document, Address Parser).  The claims below only exercise
sheet names that do not themselves contain `!`. -/
def extractSheetName (range : String) : Option String × String :=
  let l := range.data
  if l.contains '!' then
    let name := l.takeWhile (· ≠ '!')
    let rest := (l.dropWhile (· ≠ '!')).drop 1
    (some ⟨stripQuotes name⟩, ⟨rest⟩)
  else (none, range)

/-- Modelled from the spec: `getSheetId` (range-helpers.ts is not among
the available sources) resolves a sheet name against the spreadsheet
metadata by exact, case-sensitive name match, failing when no sheet has
that name (design document, Sheet Resolver).  The metadata round-trip
is modelled by the association list of sheet identities. -/
def resolveSheetId (sheetList : List (String × Nat)) (name : String) :
    Except TranslationError Nat :=
  match sheetList.find? (fun p => p.1 = name) with
  | some p => .ok p.2
  | none => .error (.sheetNotFound name)

/-- Parses one `columnLetterRow` cell reference into zero-based
(row, column) coordinates; `none` on a malformed reference. -/
def parseCellRef (l : List Char) : Option (Nat × Nat) :=
  let letters := l.takeWhile isColLetterB
  let rest := l.dropWhile isColLetterB
  if letters = [] ∨ rest = [] ∨ ¬ rest.all Char.isDigit then none
  else some (digitsToNat rest - 1, colVal letters - 1)

/-- Modelled from the spec: `parseRange` (range-helpers.ts is not among
the available sources) parses a sheet-free A1 range
`columnLetterRow [ : columnLetterRow ]` into a `GridRegion` on the
given sheet, per the design document grammar; a single-cell reference
yields a height-1, width-1 region.  Unbounded column/row forms are not
exercised by any claim and map to `invalidRange` here. -/
def parseRange (range : String) (sheetId : Nat) :
    Except TranslationError GridRegion :=
  let l := range.data
  if l.contains ':' then
    let first := l.takeWhile (· ≠ ':')
    let second := (l.dropWhile (· ≠ ':')).drop 1
    match parseCellRef first, parseCellRef second with
    | some (r1, c1), some (r2, c2) =>
      if second.contains ':' then .error (.invalidRange range)
      else .ok { sheetId := sheetId, startRow := r1, endRow := r2
                 startCol := c1, endCol := c2 }
    | _, _ => .error (.invalidRange range)
  else
    match parseCellRef l with
    | some (r, c) =>
      .ok { sheetId := sheetId, startRow := r, endRow := r
            startCol := c, endCol := c }
    | none => .error (.invalidRange range)

/-! ## Cell formatting (sheets_format_cells, sheets_batch_format_cells) -/

/-- An RGBA color with independently optional channels in `[0, 1]`. -/
structure Color where
  red : Option ℚ
  green : Option ℚ
  blue : Option ℚ
  alpha : Option ℚ
deriving DecidableEq

/-- Text-format attributes of a `StyleSpec`; every field is
independently optional. -/
structure TextFormatInput where
  foregroundColor : Option Color
  fontFamily : Option String
  fontSize : Option ℚ
  bold : Option Bool
  italic : Option Bool
  strikethrough : Option Bool
  underline : Option Bool
deriving DecidableEq

/-- A number-format attribute (`type` is required by the schema,
`pattern` optional). -/
structure NumberFormatInput where
  type : String
  pattern : Option String
deriving DecidableEq

/-- Cell padding attributes. -/
structure PaddingInput where
  top : Option ℚ
  right : Option ℚ
  bottom : Option ℚ
  left : Option ℚ
deriving DecidableEq

/-- The `StyleSpec` accepted by the formatting commands: a mapping of
independently optional formatting attributes. -/
structure CellFormatInput where
  backgroundColor : Option Color
  textFormat : Option TextFormatInput
  horizontalAlignment : Option String
  verticalAlignment : Option String
  wrapStrategy : Option String
  numberFormat : Option NumberFormatInput
  padding : Option PaddingInput
deriving DecidableEq

/-- The built `textFormat` object: a key is present exactly when the
corresponding `Option` is `some`. -/
structure BuiltTextFormat where
  foregroundColor : Option Color
  fontFamily : Option String
  fontSize : Option ℚ
  bold : Option Bool
  italic : Option Bool
  strikethrough : Option Bool
  underline : Option Bool
deriving DecidableEq

/-- The built `numberFormat` object (`pattern ?? null`). -/
structure BuiltNumberFormat where
  type : String
  pattern : Option String
deriving DecidableEq

/-- The built `userEnteredFormat` object: a key is present exactly when
the corresponding `Option` is `some`. -/
structure BuiltCellFormat where
  backgroundColor : Option Color
  textFormat : Option BuiltTextFormat
  horizontalAlignment : Option String
  verticalAlignment : Option String
  wrapStrategy : Option String
  numberFormat : Option BuiltNumberFormat
  padding : Option PaddingInput
deriving DecidableEq

/-- JavaScript truthiness of an optional string: the empty string is
falsy. -/
def truthyStr (o : Option String) : Option String :=
  o.bind fun s => if s = "" then none else some s

/-- The `textFormat` built by `formatCellsHandler`: each of the seven
attributes is copied exactly when it is present
(`!== undefined` checks, source lines 111-135 of the format-cells
tool). -/
def buildTextFormat (tf : TextFormatInput) : BuiltTextFormat :=
  { foregroundColor := tf.foregroundColor
    fontFamily := tf.fontFamily
    fontSize := tf.fontSize
    bold := tf.bold
    italic := tf.italic
    strikethrough := tf.strikethrough
    underline := tf.underline }

/-- The `cellFormat` built by `formatCellsHandler` (source lines
105-158): each attribute sub-object is emitted exactly when the input
attribute is present (for the string-valued attributes the source uses
JavaScript truthiness, under which the empty string also counts as
absent). -/
def buildCellFormat (format : CellFormatInput) : BuiltCellFormat :=
  { backgroundColor := format.backgroundColor
    textFormat := format.textFormat.map buildTextFormat
    horizontalAlignment := truthyStr format.horizontalAlignment
    verticalAlignment := truthyStr format.verticalAlignment
    wrapStrategy := truthyStr format.wrapStrategy
    numberFormat := format.numberFormat.map fun nf =>
      { type := nf.type, pattern := nf.pattern }
    padding := format.padding }

/-- The `repeatCell` request sent by the formatting commands: the cell
data carries the built format, and `fields` is the update mask string
passed to the backend. -/
structure RepeatCellRequest where
  range : GridRegion
  userEnteredFormat : BuiltCellFormat
  fields : String
deriving DecidableEq

/-- The `repeatCell` request built by `formatCellsHandler` (source
lines 160-176): `cell.userEnteredFormat` is the built format and the
update mask is the constant string `userEnteredFormat`. -/
def buildFormatCellsRequest (gridRange : GridRegion)
    (format : CellFormatInput) : RepeatCellRequest :=
  { range := gridRange
    userEnteredFormat := buildCellFormat format
    fields := "userEnteredFormat" }

/-- The per-request `cellFormat` built by `handleBatchFormatCells`
(source lines 152-208 of the batch-format tool, which repeat the
format-cells logic verbatim). -/
def batchBuildCellFormat (format : CellFormatInput) : BuiltCellFormat :=
  { backgroundColor := format.backgroundColor
    textFormat := format.textFormat.map buildTextFormat
    horizontalAlignment := truthyStr format.horizontalAlignment
    verticalAlignment := truthyStr format.verticalAlignment
    wrapStrategy := truthyStr format.wrapStrategy
    numberFormat := format.numberFormat.map fun nf =>
      { type := nf.type, pattern := nf.pattern }
    padding := format.padding }

/-- The list of `repeatCell` requests built by `handleBatchFormatCells`
(source lines 141-220): one request per resolved range/format pair,
each with the constant `userEnteredFormat` update mask. -/
def buildBatchFormatRequests
    (formatRequests : List (GridRegion × CellFormatInput)) :
    List RepeatCellRequest :=
  formatRequests.map fun p =>
    { range := p.1
      userEnteredFormat := batchBuildCellFormat p.2
      fields := "userEnteredFormat" }

/-! ## Borders (sheets_update_borders) -/

/-- One border edge in the input: `style` is required by the schema,
`color` and `width` optional. -/
structure BorderInput where
  style : String
  color : Option Color
  width : Option ℚ
deriving DecidableEq

/-- The six independently optional border edges of the input. -/
structure BordersInput where
  top : Option BorderInput
  bottom : Option BorderInput
  left : Option BorderInput
  right : Option BorderInput
  innerHorizontal : Option BorderInput
  innerVertical : Option BorderInput
deriving DecidableEq

/-- A border object in the built request. -/
structure BuiltBorder where
  style : String
  color : Option Color
  width : Option ℚ
deriving DecidableEq

/-- `convertBorder` from `updateBordersHandler`: `undefined` stays
absent, any present border (its `NONE` style included) maps to a
border object. -/
def convertBorder (border : Option BorderInput) : Option BuiltBorder :=
  border.map fun b => { style := b.style, color := b.color, width := b.width }

/-- The `updateBorders` request: each edge key is present exactly when
the corresponding `Option` is `some`. -/
structure UpdateBordersRequest where
  range : GridRegion
  top : Option BuiltBorder
  bottom : Option BuiltBorder
  left : Option BuiltBorder
  right : Option BuiltBorder
  innerHorizontal : Option BuiltBorder
  innerVertical : Option BuiltBorder
deriving DecidableEq

/-- The request built by `updateBordersHandler` (source lines 77-121):
starting from `{range}`, each of the six edges is assigned exactly when
`convertBorder` returns a border object for it, i.e. exactly when the
edge is present in the input. -/
def buildUpdateBordersRequest (gridRange : GridRegion)
    (borders : BordersInput) : UpdateBordersRequest :=
  { range := gridRange
    top := convertBorder borders.top
    bottom := convertBorder borders.bottom
    left := convertBorder borders.left
    right := convertBorder borders.right
    innerHorizontal := convertBorder borders.innerHorizontal
    innerVertical := convertBorder borders.innerVertical }

/-! ## Charts: shared spec model -/

/-- A chart data source: `sourceRange.sources`, a list of grid
regions. -/
structure ChartSourceRange where
  sources : List GridRegion
deriving DecidableEq

/-- One axis entry of a basic chart. -/
structure ChartAxisOut where
  position : String
  title : Option String
deriving DecidableEq

/-- One domain entry of a basic chart
(`{domain: {sourceRange: {sources: [...]}}}`). -/
structure ChartDomainEntry where
  domain : ChartSourceRange
deriving DecidableEq

/-- One series entry of a basic chart. -/
structure BasicChartSeriesOut where
  series : ChartSourceRange
  targetAxis : String
  type : Option String
deriving DecidableEq

/-- The `basicChart` part of a chart spec. -/
structure BasicChartSpec where
  chartType : Option String
  legendPosition : Option String
  axis : List ChartAxisOut
  domains : List ChartDomainEntry
  series : List BasicChartSeriesOut
deriving DecidableEq

/-- The `pieChart` part of a chart spec.  `none` for `domain` or
`series` models the empty object `{}` the source uses as the initial
value. -/
structure PieChartSpec where
  legendPosition : Option String
  domain : Option ChartSourceRange
  series : Option ChartSourceRange
deriving DecidableEq

/-- An embedded chart specification (the fields of `Schema$ChartSpec`
that the handlers read or write). -/
structure ChartSpec where
  title : Option String
  subtitle : Option String
  backgroundColor : Option Color
  altText : Option String
  basicChart : Option BasicChartSpec
  pieChart : Option PieChartSpec
deriving DecidableEq

/-- The anchor cell of an overlay position. -/
structure AnchorCell where
  sheetId : Nat
  rowIndex : Nat
  columnIndex : Nat
deriving DecidableEq

/-- An overlay position. -/
structure OverlayPosition where
  anchorCell : AnchorCell
deriving DecidableEq

/-- A chart position. -/
structure ChartPosition where
  overlayPosition : OverlayPosition
deriving DecidableEq

/-- A legend configuration in the input. -/
structure LegendInput where
  position : Option String
deriving DecidableEq

/-- An axis configuration in the input (only `title` is read by the
create handler). -/
structure ChartAxisInput where
  title : Option String
deriving DecidableEq

/-- One series of the chart input. -/
structure ChartSeriesInput where
  sourceRange : String
  type : Option String
  targetAxis : Option String
deriving DecidableEq

/-- Whether a string ends with the `_LEGEND` suffix (models
`pos.endsWith('_LEGEND')`). -/
def endsWithLegend (s : String) : Bool :=
  "_LEGEND".data.isSuffixOf s.data

/-! ## sheets_create_chart -/

/-- The validated input of `handleCreateChart` (spreadsheet id and
access token omitted: they do not influence the built spec). -/
structure CreateChartInput where
  position : ChartPosition
  chartType : String
  title : Option String
  subtitle : Option String
  series : List ChartSeriesInput
  domainRange : Option String
  legend : Option LegendInput
  backgroundColor : Option Color
  altText : Option String
  domainAxis : Option ChartAxisInput
  leftAxis : Option ChartAxisInput
  rightAxis : Option ChartAxisInput
deriving DecidableEq

/-- Legend-position normalization in `handleCreateChart` (source lines
198-208): default `BOTTOM_LEGEND`; a truthy supplied token keeps its
value when it already ends in `_LEGEND` or equals `NO_LEGEND`, and has
`_LEGEND` appended otherwise. -/
def createLegendPosition (legend : Option LegendInput) : String :=
  match truthyStr (legend.bind (·.position)) with
  | none => "BOTTOM_LEGEND"
  | some pos =>
    if ¬ endsWithLegend pos ∧ pos ≠ "NO_LEGEND" then pos ++ "_LEGEND"
    else pos

/-- The chart-type switch of `handleCreateChart` (source lines
211-272): `PIE` builds a `pieChart`, every other token (the enumerated
`COLUMN`/`BAR`/`LINE`/`AREA`/`SCATTER` cases and the default case all
build the same record) a `basicChart` with empty axis/domains/series. -/
def initialChartStructure (chartType legendPos : String) :
    Option BasicChartSpec × Option PieChartSpec :=
  match chartType with
  | "PIE" =>
    (none, some { legendPosition := some legendPos, domain := none, series := none })
  | t =>
    (some { chartType := some t, legendPosition := some legendPos
            axis := [], domains := [], series := [] }, none)

/-- The axis list assembled by `handleCreateChart` (source lines
274-311): one entry per axis input with a truthy title, in
domain/left/right order. -/
def buildCreateAxes (inp : CreateChartInput) : List ChartAxisOut :=
  (match truthyStr (inp.domainAxis.bind (·.title)) with
   | some t => [{ position := "BOTTOM_AXIS", title := some t }]
   | none => []) ++
  (match truthyStr (inp.leftAxis.bind (·.title)) with
   | some t => [{ position := "LEFT_AXIS", title := some t }]
   | none => []) ++
  (match truthyStr (inp.rightAxis.bind (·.title)) with
   | some t => [{ position := "RIGHT_AXIS", title := some t }]
   | none => [])

/-- Model of the unanchored regular expression
`[A-Z]+(\d+):[A-Z]+(\d+)` matched against a clean range to read off the
row span (create-chart tool, lines 386 and 426): attempts a match at
the head of the list.  At a fixed start the greedy groups are the
maximal runs, because the character classes are disjoint. -/
def rowSpanAt (l : List Char) : Option (List Char × List Char) :=
  let letters1 := l.takeWhile isColLetterB
  let r1 := l.dropWhile isColLetterB
  let d1 := r1.takeWhile Char.isDigit
  let r2 := r1.dropWhile Char.isDigit
  if letters1 = [] ∨ d1 = [] then none
  else
    match r2 with
    | ':' :: r3 =>
      let letters2 := r3.takeWhile isColLetterB
      let r4 := r3.dropWhile isColLetterB
      let d2 := r4.takeWhile Char.isDigit
      if letters2 = [] ∨ d2 = [] then none else some (d1, d2)
    | _ => none

/-- First (leftmost) match of the row-span pattern, as found by the
JavaScript regex engine scanning successive start positions. -/
def matchRowSpan : List Char → Option (List Char × List Char)
  | [] => none
  | c :: rest =>
    match rowSpanAt (c :: rest) with
    | some r => some r
    | none => matchRowSpan rest

/-- Resolves the sheet id of one series range: an explicit sheet
qualifier is resolved against the metadata, otherwise the fallback id
is used (create-chart tool, lines 336-341 and 413-415). -/
def seriesSheetId (env : List (String × Nat)) (fallback : Nat)
    (sourceRange : String) : Except TranslationError Nat :=
  match (extractSheetName sourceRange).1 with
  | some n => resolveSheetId env n
  | none => .ok fallback

/-- One basic-chart series entry built by `handleCreateChart` (source
lines 335-354). -/
def buildCreateSeries (env : List (String × Nat)) (fallback : Nat)
    (chartType : String) (s : ChartSeriesInput) :
    Except TranslationError BasicChartSeriesOut := do
  let cleanRange := (extractSheetName s.sourceRange).2
  let sid ← seriesSheetId env fallback s.sourceRange
  let gridRange ← parseRange cleanRange sid
  .ok { series := { sources := [gridRange] }
        targetAxis := (truthyStr s.targetAxis).getD "LEFT_AXIS"
        type := some ((truthyStr s.type).getD chartType) }

/-- The domain list built by `handleCreateChart` for the categorical
family (source lines 356-401): an explicit truthy `domainRange` is
resolved and parsed and wins outright; otherwise the domain is derived
from the first series by re-using its row span against column `A`
(`A${match[1]}:A${match[2]}`); when the first series range has no
row-span match, no domain is set. -/
def buildCreateDomains (env : List (String × Nat)) (actualSheetId : Nat)
    (inp : CreateChartInput) (firstSeriesRange : String) :
    Except TranslationError (List ChartDomainEntry) := do
  match truthyStr inp.domainRange with
  | some dr =>
    let domainClean := (extractSheetName dr).2
    let dsid ← seriesSheetId env actualSheetId dr
    let g ← parseRange domainClean dsid
    .ok [{ domain := { sources := [g] } }]
  | none =>
    let domainClean := (extractSheetName firstSeriesRange).2
    let dsid ← seriesSheetId env actualSheetId firstSeriesRange
    match matchRowSpan domainClean.data with
    | some (d1, d2) =>
      let domainRange : String := "A" ++ ⟨d1⟩ ++ ":A" ++ ⟨d2⟩
      let g ← parseRange domainRange dsid
      .ok [{ domain := { sources := [g] } }]
    | none => .ok []

/-- The chart spec built by `handleCreateChart` (source lines 183-437),
given the spreadsheet metadata for sheet-name resolution.  The pie
branch (lines 402-437) parses the first series range and always derives
the domain from its row span against column `A`; it never consults
`domainRange`. -/
def buildChartSpec (env : List (String × Nat)) (inp : CreateChartInput) :
    Except TranslationError ChartSpec := do
  let legendPos := createLegendPosition inp.legend
  let structure0 := initialChartStructure inp.chartType legendPos
  let basic0 := structure0.1
  let pie0 := structure0.2
  let basic1 := basic0.map fun b =>
    let axes := buildCreateAxes inp
    if axes ≠ [] then { b with axis := axes } else b
  match basic1, inp.series with
  | some b, s0 :: rest =>
    let firstSeriesRange := s0.sourceRange
    let actualSheetId ←
      match (extractSheetName firstSeriesRange).1 with
      | some n => resolveSheetId env n
      | none => .ok inp.position.overlayPosition.anchorCell.sheetId
    let seriesOut ← (s0 :: rest).mapM
      (buildCreateSeries env actualSheetId inp.chartType)
    let domains ← buildCreateDomains env actualSheetId inp firstSeriesRange
    .ok { title := inp.title, subtitle := inp.subtitle
          backgroundColor := inp.backgroundColor, altText := inp.altText
          basicChart := some { b with series := b.series ++ seriesOut
                                      domains := domains }
          pieChart := none }
  | basicAny, seriesAny =>
    match pie0, seriesAny with
    | some p, s0 :: _ =>
      let cleanRange := (extractSheetName s0.sourceRange).2
      let sid ←
        match (extractSheetName s0.sourceRange).1 with
        | some n => resolveSheetId env n
        | none => .ok inp.position.overlayPosition.anchorCell.sheetId
      let gridRange ← parseRange cleanRange sid
      let p1 := { p with series := some { sources := [gridRange] } }
      let p2 ←
        match matchRowSpan cleanRange.data with
        | some (d1, d2) =>
          let domainRange : String := "A" ++ ⟨d1⟩ ++ ":A" ++ ⟨d2⟩
          let g ← parseRange domainRange sid
          .ok { p1 with domain := some { sources := [g] } }
        | none => .ok p1
      .ok { title := inp.title, subtitle := inp.subtitle
            backgroundColor := inp.backgroundColor, altText := inp.altText
            basicChart := none, pieChart := some p2 }
    | _, _ =>
      .ok { title := inp.title, subtitle := inp.subtitle
            backgroundColor := inp.backgroundColor, altText := inp.altText
            basicChart := basicAny, pieChart := pie0 }

/-! ## sheets_update_chart -/

/-- An embedded chart as read back from the backend. -/
structure EmbeddedChart where
  chartId : Nat
  position : Option ChartPosition
  spec : ChartSpec
deriving DecidableEq

/-- The validated input of `handleUpdateChart` (spreadsheet id and
access token omitted; the axis inputs of the schema are never read by
the handler). -/
structure UpdateChartInput where
  chartId : Nat
  position : Option ChartPosition
  chartType : Option String
  title : Option String
  subtitle : Option String
  series : Option (List ChartSeriesInput)
  legend : Option LegendInput
  backgroundColor : Option Color
  altText : Option String
deriving DecidableEq

/-- The chart-lookup loop of `handleUpdateChart` (source lines
142-148): the first chart with the requested id, scanning the sheets in
order. -/
def findChart : List (List EmbeddedChart) → Nat → Option EmbeddedChart
  | [], _ => none
  | charts :: rest, chartId =>
    match charts.find? (fun c => c.chartId = chartId) with
    | some c => some c
    | none => findChart rest chartId

/-- The legend-position expression used throughout `handleUpdateChart`
(`validatedInput.legend?.position || 'BOTTOM_LEGEND'`, source lines
182, 192, 206 and 209): the supplied token is used as-is when truthy,
with no suffix normalization. -/
def updateLegendPosition (legend : Option LegendInput) : String :=
  (truthyStr (legend.bind (·.position))).getD "BOTTOM_LEGEND"

/-- JavaScript `||` on optional numbers: `0` is falsy. -/
def jsOrNat (a b : Option Nat) : Option Nat :=
  match a with
  | some n => if n = 0 then b else some n
  | none => b

/-- The hardcoded series source region of the series-update branch
(source lines 217-229; the source writes the Google field names
`startRowIndex`/`endRowIndex`/`startColumnIndex`/`endColumnIndex` with
values 0, 100, 0 and 1).  The `as number` cast of a possibly undefined
sheet id is modelled as 0. -/
def updateSeriesRegion (inpPosition curPosition : Option ChartPosition) :
    GridRegion :=
  { sheetId := (jsOrNat
      (inpPosition.map (·.overlayPosition.anchorCell.sheetId))
      (curPosition.map (·.overlayPosition.anchorCell.sheetId))).getD 0
    startRow := 0
    endRow := 100
    startCol := 0
    endCol := 1 }

/-- The updated chart built by `handleUpdateChart` from the read-back
chart and the update input (source lines 154-242): the spec starts as a
copy of the current spec; scalar fields are overwritten only when
present in the input; a present `chartType` rebuilds the chart
structure keeping the current axis/domains/series (basic) or
domain/series (pie) and resetting the legend position; a present
`legend` overwrites the legend position of whichever structure is
present; a present `series` (with a basic chart present) replaces the
series list with entries whose source region is the hardcoded
`updateSeriesRegion`. -/
def buildUpdatedChart (current : EmbeddedChart) (inp : UpdateChartInput) :
    EmbeddedChart :=
  let position := inp.position.or current.position
  let spec1 : ChartSpec :=
    { current.spec with
      title := inp.title.or current.spec.title
      subtitle := inp.subtitle.or current.spec.subtitle
      backgroundColor := inp.backgroundColor.or current.spec.backgroundColor
      altText := inp.altText.or current.spec.altText }
  let spec2 : ChartSpec :=
    match inp.chartType with
    | none => spec1
    | some "PIE" =>
      { spec1 with
        pieChart := some
          { legendPosition := some (updateLegendPosition inp.legend)
            domain := current.spec.pieChart.bind (·.domain)
            series := current.spec.pieChart.bind (·.series) }
        basicChart := none }
    | some t =>
      { spec1 with
        basicChart := some
          { chartType := some t
            legendPosition := some (updateLegendPosition inp.legend)
            axis := (current.spec.basicChart.map (·.axis)).getD []
            domains := (current.spec.basicChart.map (·.domains)).getD []
            series := (current.spec.basicChart.map (·.series)).getD [] }
        pieChart := none }
  let spec3 : ChartSpec :=
    match inp.legend with
    | none => spec2
    | some _ =>
      match spec2.basicChart with
      | some b =>
        { spec2 with
          basicChart :=
            some { b with legendPosition := some (updateLegendPosition inp.legend) } }
      | none =>
        match spec2.pieChart with
        | some p =>
          { spec2 with
            pieChart :=
              some { p with legendPosition := some (updateLegendPosition inp.legend) } }
        | none => spec2
  let spec4 : ChartSpec :=
    match inp.series, spec3.basicChart with
    | some l, some b =>
      { spec3 with
        basicChart :=
          some { b with
                 series := l.map fun s =>
                   { series :=
                       { sources := [updateSeriesRegion inp.position current.position] }
                     targetAxis := (truthyStr s.targetAxis).getD "LEFT_AXIS"
                     type := s.type.or inp.chartType } } }
    | _, _ => spec3
  { chartId := inp.chartId, position := position, spec := spec4 }

/-- `handleUpdateChart` up to the backend dispatch: reads the chart
back from the spreadsheet listing, fails when it is absent, and
otherwise produces the `updateChartSpec` spec (and new position) sent
in the batch update. -/
def handleUpdateChartModel (sheetsCharts : List (List EmbeddedChart))
    (inp : UpdateChartInput) : Except String (Option ChartPosition × ChartSpec) :=
  match findChart sheetsCharts inp.chartId with
  | none => .error "Chart not found"
  | some current =>
    let updated := buildUpdatedChart current inp
    .ok (updated.position, updated.spec)

/-! ## Concrete fixtures used by the scenario properties -/

/-- The `{bold: true}`-only `StyleSpec` of the style-builder scenario. -/
def boldOnlyFormat : CellFormatInput :=
  { backgroundColor := none
    textFormat := some
      { foregroundColor := none, fontFamily := none, fontSize := none
        bold := some true, italic := none, strikethrough := none
        underline := none }
    horizontalAlignment := none, verticalAlignment := none
    wrapStrategy := none, numberFormat := none, padding := none }

/-- A one-sheet spreadsheet whose sheet `Sheet1` has id 7. -/
def sampleEnv : List (String × Nat) := [("Sheet1", 7)]

/-- A chart position anchored on sheet id 0. -/
def samplePosition : ChartPosition :=
  { overlayPosition :=
      { anchorCell := { sheetId := 0, rowIndex := 0, columnIndex := 0 } } }

/-- A proportional-family chart input with the single series region
`Sheet1!B2:B10` and no explicit domain. -/
def pieSeriesInput : CreateChartInput :=
  { position := samplePosition
    chartType := "PIE"
    title := none, subtitle := none
    series := [{ sourceRange := "Sheet1!B2:B10", type := none, targetAxis := none }]
    domainRange := none, legend := none
    backgroundColor := none, altText := none
    domainAxis := none, leftAxis := none, rightAxis := none }

/-- A chart read back from the backend: a `COLUMN` basic chart with a
configured `RIGHT_LEGEND` legend and one titled axis. -/
def sampleCurrentChart : EmbeddedChart :=
  { chartId := 5
    position := some
      { overlayPosition :=
          { anchorCell := { sheetId := 7, rowIndex := 1, columnIndex := 1 } } }
    spec :=
      { title := some "Old title", subtitle := some "Old subtitle"
        backgroundColor := none, altText := none
        basicChart := some
          { chartType := some "COLUMN"
            legendPosition := some "RIGHT_LEGEND"
            axis := [{ position := "BOTTOM_AXIS", title := some "X" }]
            domains := [], series := [] }
        pieChart := none } }

/-- An update input for chart 5 that mentions no field at all. -/
def emptyUpdateInput : UpdateChartInput :=
  { chartId := 5, position := none, chartType := none
    title := none, subtitle := none, series := none, legend := none
    backgroundColor := none, altText := none }

/-!
# Theorems
-/

theorem colVal_append (l : List Char) (x : Char) :
    colVal (l ++ [x]) = colVal l * 26 + (x.toNat - 64) := by
  simp [colVal, List.foldl_append]

theorem colVal_le_foldl (a : Nat) (l : List Char) :
    a ≤ l.foldl (fun a c => a * 26 + (c.toNat - 64)) a := by
  induction l generalizing a with
  | nil => simp
  | cons c l ih =>
    have h1 : a ≤ a * 26 + (c.toNat - 64) := by nlinarith
    simpa using h1.trans (ih (a * 26 + (c.toNat - 64)))

theorem colVal_pos (l : List Char) (hne : l ≠ [])
    (hl : ∀ c ∈ l, isColLetter c) : 1 ≤ colVal l := by
  induction l using List.reverseRecOn with
  | nil => exact absurd rfl hne
  | append_singleton xs x _ =>
    have hx : isColLetter x := hl x (by simp)
    have h1 : 1 ≤ x.toNat - 64 := by
      rcases hx with ⟨h1, _⟩; omega
    rw [colVal_append]; omega

theorem indexToColumnGo_colVal (l : List Char) (acc : List Char)
    (hl : ∀ c ∈ l, isColLetter c) :
    indexToColumnGo (colVal l) acc = l ++ acc := by
  induction l using List.reverseRecOn generalizing acc with
  | nil => simp [colVal, indexToColumnGo]
  | append_singleton xs x ih =>
    have hx : isColLetter x := hl x (by simp)
    rcases hx with ⟨hx1, hx2⟩
    have hxs : ∀ c ∈ xs, isColLetter c := fun c hc => hl c (by simp [hc])
    rw [colVal_append]
    have hne : ¬ (colVal xs * 26 + (x.toNat - 64) = 0) := by omega
    rw [indexToColumnGo, if_neg hne]
    have hsub : colVal xs * 26 + (x.toNat - 64) - 1
        = colVal xs * 26 + (x.toNat - 65) := by omega
    have hmod : (colVal xs * 26 + (x.toNat - 65)) % 26 = x.toNat - 65 := by
      omega
    have hdiv : (colVal xs * 26 + (x.toNat - 65)) / 26 = colVal xs := by
      omega
    have hchar : Char.ofNat (x.toNat - 65 + 65) = x := by
      have h65 : x.toNat - 65 + 65 = x.toNat := by omega
      rw [h65, Char.ofNat_toNat]
    rw [hsub, hmod, hdiv, hchar, ih (x :: acc) hxs]
    simp

theorem indexToColumn_colVal (l : List Char) (hne : l ≠ [])
    (hl : ∀ c ∈ l, isColLetter c) :
    indexToColumn (colVal l - 1) = ⟨l⟩ := by
  have h1 : 1 ≤ colVal l := colVal_pos l hne hl
  have h2 : colVal l - 1 + 1 = colVal l := by omega
  unfold indexToColumn
  rw [h2, indexToColumnGo_colVal l [] hl]
  simp

/-- C4: column-letter conversion is bijective base-26 with A = 0,
Z = 25, AA = 26: `indexToColumn 0 = "A"`, `indexToColumn 25 = "Z"`,
`indexToColumn 26 = "AA"`, and for every valid column-letter string of
length at most 3, converting it to its zero-based index and back via
`indexToColumn` reproduces the string exactly. -/
theorem columnLetters_roundTrip :
    indexToColumn 0 = "A" ∧ indexToColumn 25 = "Z" ∧ indexToColumn 26 = "AA" ∧
    ∀ s : String, s.data ≠ [] → s.data.length ≤ 3 →
      (∀ c ∈ s.data, isColLetter c) →
      indexToColumn (lettersToIndex s) = s := by
  have main : ∀ s : String, s.data ≠ [] → (∀ c ∈ s.data, isColLetter c) →
      indexToColumn (lettersToIndex s) = s := by
    intro s hne hl
    obtain ⟨l⟩ := s
    exact indexToColumn_colVal l hne hl
  refine ⟨?_, ?_, ?_, fun s hne _ hl => main s hne hl⟩
  · have h := main "A" (by decide) (by decide)
    simpa [lettersToIndex, colVal] using h
  · have h := main "Z" (by decide) (by decide)
    simpa [lettersToIndex, colVal] using h
  · have h := main "AA" (by decide) (by decide)
    simpa [lettersToIndex, colVal] using h

/-- Witness for C4: the round trip at the concrete string `AB`
(zero-based index 27). -/
theorem columnLetters_roundTrip_witness :
    indexToColumn (lettersToIndex "AB") = "AB" :=
  columnLetters_roundTrip.2.2.2 "AB" (by decide) (by decide) (by decide)

/-- C3: for every `sheets_insert_rows` invocation with anchor row index
`r` and requested row count `k`, position `BEFORE` yields
`startIndex = r`, position `AFTER` yields `startIndex = r + 1`, in both
cases `endIndex = startIndex + k`; anchor row index 4 with `rows = 2`
and position `AFTER` yields the span `{startRow: 5, endRow: 7}`. -/
theorem insertRows_span (sheetId r k : Nat) :
    (buildInsertDimensionRange sheetId "BEFORE" r k).startIndex = r ∧
    (buildInsertDimensionRange sheetId "AFTER" r k).startIndex = r + 1 ∧
    (∀ position : String,
      (buildInsertDimensionRange sheetId position r k).endIndex
        = (buildInsertDimensionRange sheetId position r k).startIndex + k) ∧
    buildInsertDimensionRange sheetId "AFTER" 4 2
      = { sheetId := sheetId, dimension := "ROWS", startIndex := 5, endIndex := 7 } := by
  refine ⟨?_, ?_, ?_, ?_⟩
  · simp [buildInsertDimensionRange, insertStartIndex]
  · simp [buildInsertDimensionRange, insertStartIndex]
  · intro position
    simp [buildInsertDimensionRange]
  · simp [buildInsertDimensionRange, insertStartIndex]

/-- C5: for every `sheets_update_values` invocation whose range ends in
a letters-digits:letters-digits pattern and whose payload row count
differs from the implied row height `endRow - startRow + 1`, the
handler throws the row-count-mismatch error; the `.error` result is
produced by the validation step that runs before the backend call, so
no update is dispatched. -/
theorem updateValues_rowMismatch (spreadsheetId valueInputOption range : String)
    (values : List (List CellValue)) (l1 d1 l2 d2 : List Char)
    (hm : matchFixedRange range = some (l1, d1, l2, d2))
    (hmm : (digitsToNat d2 : Int) - (digitsToNat d1 : Int) + 1 ≠ (values.length : Int)) :
    handleUpdateValues spreadsheetId range valueInputOption values
      = .error (.rangeMismatch range
          ((digitsToNat d2 : Int) - (digitsToNat d1 : Int) + 1) values.length) := by
  simp only [handleUpdateValues, validateRangeRowCount, hm, hmm, if_true, ite_not]
  rfl

/-- Witness for C5: the scenario of the design document — the fixed
range `Sheet1!A1:B2` (implied height 2 rows) with a 3-row payload is
rejected with the mismatch error. -/
theorem updateValues_rowMismatch_witness :
    handleUpdateValues "sheet-id" "Sheet1!A1:B2" "USER_ENTERED" [[], [], []]
      = .error (.rangeMismatch "Sheet1!A1:B2" 2 3) := by
  have h := updateValues_rowMismatch "sheet-id" "USER_ENTERED" "Sheet1!A1:B2"
    [[], [], []] ['A'] ['1'] ['B'] ['2'] (by decide) (by decide)
  simpa using h

/-- C10: `validateRangeRowCount` validates only ranges matching the
end-anchored letters-digits:letters-digits pattern; a single cell
`A1`, a bare column range `A:C` and an open anchor `A42` do not match,
and for every non-matching range the handler returns without error and
dispatches the update to the backend regardless of the payload row
count. -/
theorem updateValues_flexibleRange_dispatch :
    matchFixedRange "A1" = none ∧
    matchFixedRange "A:C" = none ∧
    matchFixedRange "A42" = none ∧
    ∀ (spreadsheetId valueInputOption range : String)
      (values : List (List CellValue)),
      matchFixedRange range = none →
      handleUpdateValues spreadsheetId range valueInputOption values
        = .ok { spreadsheetId := spreadsheetId, range := range
                valueInputOption := valueInputOption, values := values } := by
  refine ⟨by decide, by decide, by decide, ?_⟩
  intro spreadsheetId valueInputOption range values hm
  simp only [handleUpdateValues, validateRangeRowCount, hm]
  rfl

/-- Witness for C10: the single-cell range `A1` with a 3-row payload is
dispatched unvalidated. -/
theorem updateValues_flexibleRange_dispatch_witness :
    handleUpdateValues "sheet-id" "A1" "USER_ENTERED" [[], [], []]
      = .ok { spreadsheetId := "sheet-id", range := "A1"
              valueInputOption := "USER_ENTERED", values := [[], [], []] } :=
  updateValues_flexibleRange_dispatch.2.2.2 "sheet-id" "USER_ENTERED" "A1"
    [[], [], []] (by decide)

/-- C6: for a `sheets_format_cells` input whose format is
`{textFormat: {bold: true}}` alone, the `userEnteredFormat` object of
the produced `repeatCell` request contains only the `textFormat.bold`
field — every other attribute of the built format object is absent. -/
theorem formatCells_boldOnly (gridRange : GridRegion) :
    buildFormatCellsRequest gridRange boldOnlyFormat
      = { range := gridRange
          userEnteredFormat :=
            { backgroundColor := none
              textFormat := some
                { foregroundColor := none, fontFamily := none, fontSize := none
                  bold := some true, italic := none, strikethrough := none
                  underline := none }
              horizontalAlignment := none, verticalAlignment := none
              wrapStrategy := none, numberFormat := none, padding := none }
          fields := "userEnteredFormat" } := rfl

/-- C7 (code evaluated at the failing input): for the `{bold: true}`
input, both formatting commands emit a `repeatCell` request whose
update mask is the constant whole-object string `userEnteredFormat`
while the attached format object leaves every attribute other than
`textFormat.bold` absent; under the backend field-mask contract such a
request overwrites the entire `userEnteredFormat` of each cell, so the
omitted attributes are reset rather than left untouched. -/
theorem formatCells_wholeObjectMask (gridRange : GridRegion) :
    (buildFormatCellsRequest gridRange boldOnlyFormat).fields = "userEnteredFormat" ∧
    (buildFormatCellsRequest gridRange boldOnlyFormat).userEnteredFormat.backgroundColor
      = none ∧
    (buildFormatCellsRequest gridRange boldOnlyFormat).userEnteredFormat.horizontalAlignment
      = none ∧
    (buildBatchFormatRequests [(gridRange, boldOnlyFormat)]).map (·.fields)
      = ["userEnteredFormat"] :=
  ⟨rfl, rfl, rfl, rfl⟩

/-- C8: the `updateBorders` request built for the input
`top: {style: "NONE"}` with no other edges carries an explicit `top`
with style `NONE` and omits the other five edge keys; in general each
of the six edge keys is present in the request exactly when that edge
is present in the input. -/
theorem updateBorders_edgePresence (gridRange : GridRegion) (borders : BordersInput) :
    buildUpdateBordersRequest gridRange
        { top := some { style := "NONE", color := none, width := none }
          bottom := none, left := none, right := none
          innerHorizontal := none, innerVertical := none }
      = { range := gridRange
          top := some { style := "NONE", color := none, width := none }
          bottom := none, left := none, right := none
          innerHorizontal := none, innerVertical := none } ∧
    (buildUpdateBordersRequest gridRange borders).top.isSome = borders.top.isSome ∧
    (buildUpdateBordersRequest gridRange borders).bottom.isSome = borders.bottom.isSome ∧
    (buildUpdateBordersRequest gridRange borders).left.isSome = borders.left.isSome ∧
    (buildUpdateBordersRequest gridRange borders).right.isSome = borders.right.isSome ∧
    (buildUpdateBordersRequest gridRange borders).innerHorizontal.isSome
      = borders.innerHorizontal.isSome ∧
    (buildUpdateBordersRequest gridRange borders).innerVertical.isSome
      = borders.innerVertical.isSome := by
  refine ⟨rfl, ?_, ?_, ?_, ?_, ?_, ?_⟩ <;>
    simp [buildUpdateBordersRequest, convertBorder]

/-- C1 counterexample: for the pie-chart input with series
`Sheet1!B2:B10` and the explicit domain range `Sheet1!C2:C10`, the
built pie domain is still the auto-derived column-A region
`A2:A10` (rows 1..9, column 0 on sheet 7) and not the supplied
`C2:C10` region — the pie branch never consults the explicit domain,
refuting the claim that an explicit domain wins for the pie family. -/
theorem createChart_pieDomain_counterexample :
    (buildChartSpec sampleEnv
        { pieSeriesInput with domainRange := some "Sheet1!C2:C10" }).toOption.bind
      (fun s => s.pieChart.bind (·.domain))
      = some { sources :=
          [{ sheetId := 7, startRow := 1, endRow := 9, startCol := 0, endCol := 0 }] } ∧
    parseRange "C2:C10" 7
      = .ok { sheetId := 7, startRow := 1, endRow := 9, startCol := 2, endCol := 2 } ∧
    ({ sources :=
        [{ sheetId := 7, startRow := 1, endRow := 9, startCol := 0, endCol := 0 }] }
      : ChartSourceRange)
      ≠ { sources :=
          [{ sheetId := 7, startRow := 1, endRow := 9, startCol := 2, endCol := 2 }] } :=
  ⟨rfl, rfl, by decide⟩

/-- C1 (amended): for the proportional (pie) family with the single
series region `Sheet1!B2:B10` and no explicit domain, the built domain
region is column A of the resolved sheet over the same row span, i.e.
the parse of `Sheet1!A2:A10`; the pie branch ignores an explicit
domain range entirely (the built spec does not depend on it), and an
explicit domain range wins only for the categorical (non-pie) chart
family. -/
theorem createChart_pieDomain_amended :
    ((buildChartSpec sampleEnv pieSeriesInput).toOption.bind
        (fun s => s.pieChart.bind (·.domain))
      = some { sources :=
          [{ sheetId := 7, startRow := 1, endRow := 9, startCol := 0, endCol := 0 }] } ∧
     resolveSheetId sampleEnv "Sheet1" = .ok 7 ∧
     parseRange "A2:A10" 7
      = .ok { sheetId := 7, startRow := 1, endRow := 9, startCol := 0, endCol := 0 }) ∧
    (∀ domainRange : String,
      buildChartSpec sampleEnv { pieSeriesInput with domainRange := some domainRange }
        = buildChartSpec sampleEnv pieSeriesInput) ∧
    (buildChartSpec sampleEnv
        { pieSeriesInput with chartType := "LINE", domainRange := some "Sheet1!C2:C10" }).toOption.bind
      (fun s => s.basicChart.map (·.domains))
      = some [{ domain := { sources :=
          [{ sheetId := 7, startRow := 1, endRow := 9, startCol := 2, endCol := 2 }] } }] :=
  ⟨⟨rfl, rfl, rfl⟩, fun _ => rfl, rfl⟩

/-- C2 counterexample: updating only the chart type (no legend in the
input) does not preserve the untouched legend position: the read-back
chart has `RIGHT_LEGEND` configured, the update input mentions
`chartType = LINE` and no legend, and the spec sent to the backend
carries `BOTTOM_LEGEND` — so the sent spec is not the current spec
with only the input fields replaced. -/
theorem updateChart_preservation_counterexample :
    (buildUpdatedChart sampleCurrentChart
        { emptyUpdateInput with chartType := some "LINE" }).spec.basicChart.map
      (·.legendPosition) = some (some "BOTTOM_LEGEND") ∧
    sampleCurrentChart.spec.basicChart.map (·.legendPosition)
      = some (some "RIGHT_LEGEND") ∧
    ({ emptyUpdateInput with chartType := some "LINE" } : UpdateChartInput).legend
      = none ∧
    some (some "BOTTOM_LEGEND") ≠ (some (some "RIGHT_LEGEND") : Option (Option String)) :=
  ⟨rfl, rfl, rfl, by decide⟩

/-- C2 (amended): `handleUpdateChart` reads the existing chart back and
sends its spec with the scalar fields replaced exactly when present in
the input; when `chartType`, `legend` and `series` are all absent the
chart structure (axes, domains, series and their source ranges) is
preserved verbatim; when `chartType` is present the structure is
rebuilt keeping the current axes, domains and series (basic) or domain
and series (pie), except that the legend position is reset to the
input legend or `BOTTOM_LEGEND` when no legend is supplied, rather
than preserved. -/
theorem updateChart_preservation_amended (current : EmbeddedChart)
    (inp : UpdateChartInput) :
    ((buildUpdatedChart current inp).spec.title = inp.title.or current.spec.title ∧
     (buildUpdatedChart current inp).spec.subtitle
       = inp.subtitle.or current.spec.subtitle ∧
     (buildUpdatedChart current inp).spec.backgroundColor
       = inp.backgroundColor.or current.spec.backgroundColor ∧
     (buildUpdatedChart current inp).spec.altText
       = inp.altText.or current.spec.altText) ∧
    (inp.chartType = none → inp.legend = none → inp.series = none →
      (buildUpdatedChart current inp).spec.basicChart = current.spec.basicChart ∧
      (buildUpdatedChart current inp).spec.pieChart = current.spec.pieChart) ∧
    (∀ t, inp.chartType = some t → t ≠ "PIE" →
      ∃ b, (buildUpdatedChart current inp).spec.basicChart = some b ∧
        b.axis = (current.spec.basicChart.map (·.axis)).getD [] ∧
        b.domains = (current.spec.basicChart.map (·.domains)).getD [] ∧
        (inp.series = none →
          b.series = (current.spec.basicChart.map (·.series)).getD []) ∧
        (inp.legend = none → b.legendPosition = some "BOTTOM_LEGEND")) ∧
    (inp.chartType = some "PIE" →
      (buildUpdatedChart current inp).spec.basicChart = none ∧
      (buildUpdatedChart current inp).spec.pieChart = some
        { legendPosition := some (updateLegendPosition inp.legend)
          domain := current.spec.pieChart.bind (·.domain)
          series := current.spec.pieChart.bind (·.series) }) ∧
    (∀ sheetsCharts, findChart sheetsCharts inp.chartId = some current →
      handleUpdateChartModel sheetsCharts inp
        = .ok ((buildUpdatedChart current inp).position,
               (buildUpdatedChart current inp).spec)) := by
  rcases inp with ⟨cid, pos, ct, ti, su, se, le, bg, at2⟩
  rcases current with ⟨ccid, cpos, ⟨cti, csu, cbg, cat, cbc, cpc⟩⟩
  refine ⟨⟨?_, ?_, ?_, ?_⟩, ?_, ?_, ?_, ?_⟩
  case _ | _ | _ | _ =>
    rcases ct with _ | t
    · rcases se with _ | l <;> rcases le with _ | lg <;>
        rcases cbc with _ | b <;> rcases cpc with _ | p <;> rfl
    · by_cases ht : t = "PIE"
      · subst ht
        rcases se with _ | l <;> rcases le with _ | lg <;>
          rcases cbc with _ | b <;> rcases cpc with _ | p <;> rfl
      · rcases se with _ | l <;> rcases le with _ | lg <;>
          rcases cbc with _ | b <;> rcases cpc with _ | p <;>
          simp only [buildUpdatedChart]
  case _ =>
    rintro rfl rfl rfl
    rcases cbc with _ | b <;> rcases cpc with _ | p <;> exact ⟨rfl, rfl⟩
  case _ =>
    rintro t rfl ht
    rcases se with _ | l <;> rcases le with _ | lg <;>
      rcases cbc with _ | b <;> rcases cpc with _ | p <;>
      (simp only [buildUpdatedChart]
       refine ⟨_, rfl, ?_, ?_, ?_, ?_⟩ <;>
         simp_all [updateLegendPosition, truthyStr])
  case _ =>
    rintro rfl
    rcases se with _ | l <;> rcases le with _ | lg <;>
      rcases cbc with _ | b <;> rcases cpc with _ | p <;> exact ⟨rfl, rfl⟩
  case _ =>
    intro sheetsCharts hfind
    simp [handleUpdateChartModel, hfind]

/-- Witness for C2 (amended): for the sample read-back chart and an
update input mentioning no field, the sent spec preserves the basic
chart verbatim, and an update naming `chartType = LINE` without a
legend yields a basic chart whose axes are preserved and whose legend
position is reset to `BOTTOM_LEGEND`. -/
theorem updateChart_preservation_witness :
    ((buildUpdatedChart sampleCurrentChart emptyUpdateInput).spec.basicChart
        = sampleCurrentChart.spec.basicChart ∧
     (buildUpdatedChart sampleCurrentChart emptyUpdateInput).spec.pieChart
        = sampleCurrentChart.spec.pieChart) ∧
    ∃ b, (buildUpdatedChart sampleCurrentChart
            { emptyUpdateInput with chartType := some "LINE" }).spec.basicChart
          = some b ∧
      b.axis = (sampleCurrentChart.spec.basicChart.map (·.axis)).getD [] ∧
      b.domains = (sampleCurrentChart.spec.basicChart.map (·.domains)).getD [] ∧
      (({ emptyUpdateInput with chartType := some "LINE" } : UpdateChartInput).series
          = none →
        b.series = (sampleCurrentChart.spec.basicChart.map (·.series)).getD []) ∧
      (({ emptyUpdateInput with chartType := some "LINE" } : UpdateChartInput).legend
          = none →
        b.legendPosition = some "BOTTOM_LEGEND") :=
  ⟨(updateChart_preservation_amended sampleCurrentChart emptyUpdateInput).2.1
      rfl rfl rfl,
   (updateChart_preservation_amended sampleCurrentChart
      { emptyUpdateInput with chartType := some "LINE" }).2.2.1 "LINE" rfl
      (by decide)⟩

/-- C9 counterexample: in `sheets_update_chart` a legend position
token supplied without the `_LEGEND` suffix is not normalized — the
update input `legend.position = "BOTTOM"` places the bare token
`BOTTOM` (which lacks the suffix and is not `NO_LEGEND`) in the spec
sent to the backend. -/
theorem chartLegend_normalization_counterexample :
    (buildUpdatedChart sampleCurrentChart
        { emptyUpdateInput with legend := some { position := some "BOTTOM" } }).spec.basicChart.map
      (·.legendPosition) = some (some "BOTTOM") ∧
    endsWithLegend "BOTTOM" = false ∧
    ("BOTTOM" : String) ≠ "NO_LEGEND" :=
  ⟨rfl, by decide, by decide⟩

/-- C9 (amended): `sheets_create_chart` normalizes a truthy legend
position token by appending `_LEGEND` when it lacks the suffix and is
not `NO_LEGEND`, keeping already-suffixed tokens and `NO_LEGEND`
as-is and defaulting to `BOTTOM_LEGEND`; `sheets_update_chart` does
not normalize: it places the supplied token in the backend request
unchanged (defaulting to `BOTTOM_LEGEND` when absent). -/
theorem chartLegend_normalization_amended :
    (∀ p : String, p ≠ "" → endsWithLegend p = false → p ≠ "NO_LEGEND" →
      createLegendPosition (some { position := some p }) = p ++ "_LEGEND") ∧
    (∀ p : String, p ≠ "" → endsWithLegend p = true →
      createLegendPosition (some { position := some p }) = p) ∧
    createLegendPosition (some { position := some "NO_LEGEND" }) = "NO_LEGEND" ∧
    createLegendPosition none = "BOTTOM_LEGEND" ∧
    (∀ p : String, p ≠ "" →
      updateLegendPosition (some { position := some p }) = p) ∧
    updateLegendPosition none = "BOTTOM_LEGEND" := by
  refine ⟨?_, ?_, by decide, rfl, ?_, rfl⟩
  · intro p hne hsuf hno
    simp [createLegendPosition, truthyStr, hne, hsuf, hno]
  · intro p hne hsuf
    simp [createLegendPosition, truthyStr, hne, hsuf]
  · intro p hne
    simp [updateLegendPosition, truthyStr, hne]

/-- Witness for C9 (amended): the create handler maps `BOTTOM` to
`BOTTOM_LEGEND` and keeps `RIGHT_LEGEND`, while the update handler
passes `BOTTOM` through unchanged. -/
theorem chartLegend_normalization_witness :
    createLegendPosition (some { position := some "BOTTOM" }) = "BOTTOM_LEGEND" ∧
    createLegendPosition (some { position := some "RIGHT_LEGEND" }) = "RIGHT_LEGEND" ∧
    updateLegendPosition (some { position := some "BOTTOM" }) = "BOTTOM" :=
  ⟨chartLegend_normalization_amended.1 "BOTTOM" (by decide) (by decide) (by decide),
   chartLegend_normalization_amended.2.1 "RIGHT_LEGEND" (by decide) (by decide),
   chartLegend_normalization_amended.2.2.2.2.1 "BOTTOM" (by decide)⟩

end SheetsMCP
